import Mathlib

/-!
Verification of the `Cursor_Voice_Talker` repository (files `app/graph.py`
and `app/main.py`) against its natural-language specification.

Python strings are embedded as `List Char` (`Str`), the filesystem as an
explicit `World` record threaded through the tools, and the LangGraph
conversation graph as a small edge structure with an executable
trace semantics.  External services (the OpenAI models, the speech
recognizer, the graph event stream) are oracles supplied as arguments.
-/

/-- Python strings, embedded as lists of characters. -/
abbrev Str := List Char

/-- Whitespace characters removed by Python `str.strip()`: exactly the code
points CPython's `str` treats as whitespace — U+0009–U+000D, U+001C–U+0020,
U+0085 (NEL), U+00A0 (NBSP), U+1680, U+2000–U+200A, U+2028, U+2029, U+202F,
U+205F and U+3000. -/
def pyIsSpace (c : Char) : Bool :=
  let n := c.toNat
  (9 ≤ n && n ≤ 13) || (28 ≤ n && n ≤ 32) || n = 133 || n = 160
    || n = 5760 || (8192 ≤ n && n ≤ 8202) || n = 8232 || n = 8233
    || n = 8239 || n = 8287 || n = 12288

/-- Python `str.strip()`: drop whitespace from both ends. -/
def pstrip (s : Str) : Str :=
  ((s.dropWhile pyIsSpace).reverse.dropWhile pyIsSpace).reverse

/-- Python `os.path.basename` (posix): everything after the last `'/'`,
i.e. `p[p.rfind('/')+1:]`. -/
def pbasename (s : Str) : Str :=
  (s.reverse.takeWhile (fun c => decide (c ≠ '/'))).reverse

/-- Python `posixpath.join a b`: `b` if `b` is absolute; otherwise `a ++ b`
when `a` is empty or ends with a separator, else `a ++ "/" ++ b`. -/
def pjoin (a b : Str) : Str :=
  if b.head? = some '/' then b
  else if a = [] ∨ a.getLast? = some '/' then a ++ b
  else a ++ '/' :: b

/-- Split a path string on `'/'` into its components. -/
def splitSlash : Str → List Str
  | [] => [[]]
  | c :: rest =>
    if c = '/' then [] :: splitSlash rest
    else
      match splitSlash rest with
      | [] => [[c]]
      | g :: gs => (c :: g) :: gs

/-- Normalize a relative component list: drop empty and `"."` components and
let `".."` cancel the preceding component (or the whole prefix when none is
left, i.e. the path escapes its starting directory). -/
def normComps (cs : List Str) : List Str :=
  cs.foldl
    (fun acc c =>
      if c = [] then acc
      else if c = ['.'] then acc
      else if c = ['.', '.'] then acc.dropLast
      else acc ++ [c]) []

/-- The workspace directory constant `CHAT_GPT_DIR = "chat_gpt"`
(`graph.py` line 18). -/
def CHAT_GPT_DIR : Str := "chat_gpt".data

/-- A (relative) path string stays inside the `chat_gpt/` directory:
after normalization its first component is `chat_gpt` (the directory itself
counts as inside). -/
def insideChatGpt (p : Str) : Bool :=
  match normComps (splitSlash p) with
  | [] => false
  | c :: _ => decide (c = CHAT_GPT_DIR)

/-- Target path of `create_folder` (`graph.py` lines 25-26):
`os.path.join(CHAT_GPT_DIR, os.path.basename(folder_name.strip()))`. -/
def create_folder_path (folder_name : Str) : Str :=
  pjoin CHAT_GPT_DIR (pbasename (pstrip folder_name))

/-- Base directory used by `create_code_file` (lines 43-45) and
`delete_file` (lines 75-77): `chat_gpt` itself when `folder_name` is `None`
or falsy (the empty string), else
`os.path.join(CHAT_GPT_DIR, os.path.basename(folder_name.strip()))`. -/
def subfolder_base (folder_name : Option Str) : Str :=
  match folder_name with
  | none => CHAT_GPT_DIR
  | some f => if f = [] then CHAT_GPT_DIR else pjoin CHAT_GPT_DIR (pbasename (pstrip f))

/-- Target path of `create_code_file` (lines 47-48):
`os.path.join(base_dir, os.path.basename(filename))`. -/
def create_code_file_path (filename : Str) (folder_name : Option Str) : Str :=
  pjoin (subfolder_base folder_name) (pbasename filename)

/-- Target path of `delete_folder` (line 62):
`os.path.join(CHAT_GPT_DIR, os.path.basename(folder_name.strip()))`. -/
def delete_folder_path (folder_name : Str) : Str :=
  pjoin CHAT_GPT_DIR (pbasename (pstrip folder_name))

/-- Target path of `delete_file` (line 78):
`os.path.join(base_dir, os.path.basename(filename))`. -/
def delete_file_path (filename : Str) (folder_name : Option Str) : Str :=
  pjoin (subfolder_base folder_name) (pbasename filename)

example : pstrip ['.', '.', Char.ofNat 160] = ['.', '.'] := by decide
example : delete_folder_path ['.', '.', Char.ofNat 160] = "chat_gpt/..".data := by decide
example : subfolder_base (some ['x', Char.ofNat 160]) = "chat_gpt/x".data := by decide
example : create_folder_path "  my_site ".data = "chat_gpt/my_site".data := by decide
example : delete_folder_path "..".data = "chat_gpt/..".data := by decide
example : insideChatGpt "chat_gpt/my_site".data = true := by decide
example : insideChatGpt "chat_gpt/..".data = false := by decide
example : insideChatGpt "chat_gpt/.".data = true := by decide
example : insideChatGpt "chat_gpt/".data = true := by decide
example : create_code_file_path "index.html".data (some "site".data)
    = "chat_gpt/site/index.html".data := by decide
example : create_code_file_path "a/b.html".data none = "chat_gpt/b.html".data := by decide

/-- Python OS-level exceptions that the filesystem primitives can raise. -/
inductive PyErr
  | fileExistsError
  | fileNotFoundError
  | isADirectoryError
  | notADirectoryError
deriving DecidableEq, Repr

/-- Rendering of an exception when interpolated into an f-string
(the exact OS message text is not load-bearing for any claim). -/
def errMsg : PyErr → Str
  | .fileExistsError => "File exists".data
  | .fileNotFoundError => "No such file or directory".data
  | .isADirectoryError => "Is a directory".data
  | .notADirectoryError => "Not a directory".data

/-- Which stdlib server class `run_project` instantiates. -/
inductive ServerClass
  | httpServer
  | threadingHTTPServer
deriving DecidableEq, Repr

/-- Which stdlib request handler `run_project` instantiates. -/
inductive HandlerClass
  | simpleHTTPRequestHandler
deriving DecidableEq, Repr

/-- `http.server.HTTPServer` handles requests sequentially on one thread;
`ThreadingHTTPServer` (HTTPServer + `ThreadingMixIn`) spawns a thread per
request. -/
def isSingleThreaded : ServerClass → Bool
  | .httpServer => true
  | .threadingHTTPServer => false

/-- Configuration of an HTTP server started by the process. `serveDir` is the
process working directory when the server is created, which is the directory
`SimpleHTTPRequestHandler` serves. -/
structure ServerCfg where
  host : Str
  port : Nat
  serverClass : ServerClass
  handlerClass : HandlerClass
  serveDir : List Str
deriving DecidableEq, Repr

/-- Process-visible world: the current working directory (as an absolute,
normalized component list), the directories and files of the filesystem
(keyed by absolute component lists), and the HTTP servers started so far. -/
structure World where
  cwd : List Str
  dirs : List (List Str)
  files : List (List Str × Str)
  servers : List ServerCfg
deriving DecidableEq, Repr

/-- Resolve a path string against the working directory (absolute when it
starts with `'/'`) and normalize it to a component list. -/
def resolveP (w : World) (p : Str) : List Str :=
  if p.head? = some '/' then normComps (splitSlash p)
  else normComps (w.cwd ++ splitSlash p)

/-- Does component path `r` name a directory of `w`? -/
def isDirW (w : World) (r : List Str) : Bool :=
  decide (r ∈ w.dirs)

/-- Does component path `r` name a file of `w`? -/
def isFileW (w : World) (r : List Str) : Bool :=
  w.files.any (fun f => decide (f.1 = r))

/-- Python `os.path.exists`. -/
def pathExistsW (w : World) (p : Str) : Bool :=
  isDirW w (resolveP w p) || isFileW w (resolveP w p)

/-- The nonempty prefixes of a component list, shortest first. -/
def compPrefixes (r : List Str) : List (List Str) :=
  (List.range r.length).map (fun i => r.take (i + 1))

/-- Python `os.makedirs(p, exist_ok)`: create the directory and its missing
ancestors; `FileExistsError` when the target exists as a file (or exists as a
directory and `exist_ok` is false), `NotADirectoryError` when an ancestor
exists as a file. -/
def makedirs (w : World) (p : Str) (exist_ok : Bool) : Except PyErr World :=
  let r := resolveP w p
  if isFileW w r then .error .fileExistsError
  else if (compPrefixes r).any (fun q => isFileW w q) then .error .notADirectoryError
  else if isDirW w r then
    if exist_ok then .ok w else .error .fileExistsError
  else .ok { w with dirs := w.dirs ++ (compPrefixes r).filter (fun q => !isDirW w q) }

/-- Python `open(p, "w")` followed by `f.write(content)`: overwrite or create
the file; `IsADirectoryError` on a directory target, `FileNotFoundError` when
the parent directory does not exist. -/
def openWrite (w : World) (p : Str) (content : Str) : Except PyErr World :=
  let r := resolveP w p
  if isDirW w r then .error .isADirectoryError
  else if r = [] then .error .isADirectoryError
  else if !isDirW w r.dropLast then .error .fileNotFoundError
  else .ok { w with files := w.files.filter (fun f => !decide (f.1 = r)) ++ [(r, content)] }

/-- Python `shutil.rmtree(p)`: remove the directory and everything below it;
raises when the target is not a directory. -/
def rmtree (w : World) (p : Str) : Except PyErr World :=
  let r := resolveP w p
  if isDirW w r then
    .ok { w with
          dirs := w.dirs.filter (fun d => !r.isPrefixOf d),
          files := w.files.filter (fun f => !r.isPrefixOf f.1) }
  else if isFileW w r then .error .notADirectoryError
  else .error .fileNotFoundError

/-- Python `os.remove(p)`: remove a file; `IsADirectoryError` on a directory,
`FileNotFoundError` when the target is missing. -/
def removeFile (w : World) (p : Str) : Except PyErr World :=
  let r := resolveP w p
  if isDirW w r then .error .isADirectoryError
  else if isFileW w r then .ok { w with files := w.files.filter (fun f => !decide (f.1 = r)) }
  else .error .fileNotFoundError

/-- Python `os.chdir(p)`. -/
def chdir (w : World) (p : Str) : Except PyErr World :=
  let r := resolveP w p
  if isDirW w r then .ok { w with cwd := r }
  else if isFileW w r then .error .notADirectoryError
  else .error .fileNotFoundError

/-- The `create_folder` tool (`graph.py` lines 21-31).  The preliminary
`os.makedirs(CHAT_GPT_DIR, exist_ok=True)` on line 24 sits outside the
`try`, so its exception propagates (`.error`); the `os.makedirs` of the
target on line 28 is wrapped and converted to a `"Failed to ..."` string. -/
def create_folder (w : World) (folder_name : Str) : World × Except PyErr Str :=
  match makedirs w CHAT_GPT_DIR true with
  | .error e => (w, .error e)
  | .ok w1 =>
    let path := create_folder_path folder_name
    match makedirs w1 path true with
    | .ok w2 => (w2, .ok ("Folder created at ".data ++ path))
    | .error e => (w1, .ok ("Failed to create folder: ".data ++ errMsg e))

/-- The `create_code_file` tool (`graph.py` lines 34-54).  The
`os.makedirs(base_dir, exist_ok=True)` on line 46 sits outside the `try`,
so its exception propagates; the `open`/`write` on lines 50-51 is wrapped. -/
def create_code_file (w : World) (filename content : Str) (folder_name : Option Str) :
    World × Except PyErr Str :=
  let base_dir := subfolder_base folder_name
  match makedirs w base_dir true with
  | .error e => (w, .error e)
  | .ok w1 =>
    let path := pjoin base_dir (pbasename filename)
    match openWrite w1 path content with
    | .ok w2 => (w2, .ok ("File created/updated at ".data ++ path))
    | .error e => (w1, .ok ("Failed to create/update file: ".data ++ errMsg e))

/-- The `delete_folder` tool (`graph.py` lines 57-69): early return on a
missing target, otherwise `shutil.rmtree` wrapped in `try`/`except`. -/
def delete_folder (w : World) (folder_name : Str) : World × Except PyErr Str :=
  let base := delete_folder_path folder_name
  if pathExistsW w base then
    match rmtree w base with
    | .ok w1 => (w1, .ok ("Folder ".data ++ base ++ " has been deleted.".data))
    | .error e => (w, .ok ("Failed to delete folder: ".data ++ errMsg e))
  else (w, .ok ("Folder ".data ++ base ++ " does not exist.".data))

/-- The `delete_file` tool (`graph.py` lines 72-85): early return on a
missing target, otherwise `os.remove` wrapped in `try`/`except`. -/
def delete_file (w : World) (filename : Str) (folder_name : Option Str) :
    World × Except PyErr Str :=
  let path := delete_file_path filename folder_name
  if pathExistsW w path then
    match removeFile w path with
    | .ok w1 => (w1, .ok ("File ".data ++ path ++ " has been deleted.".data))
    | .error e => (w, .ok ("Failed to delete file: ".data ++ errMsg e))
  else (w, .ok ("File ".data ++ path ++ " does not exist.".data))

/-- The `run_project` tool (`graph.py` lines 88-106): `os.makedirs` and
`os.chdir` into `chat_gpt/` inside a `try` whose failure returns a string,
then a `ThreadingHTTPServer` with `SimpleHTTPRequestHandler` on
`("localhost", 8000)` started on a daemon thread (the thread itself and
`serve_forever` are not modelled; the server is recorded in `w.servers`
with the working directory it serves). -/
def run_project (w : World) : World × Except PyErr Str :=
  match makedirs w CHAT_GPT_DIR true with
  | .error e => (w, .ok ("Failed to prepare project directory: ".data ++ errMsg e))
  | .ok w1 =>
    match chdir w1 CHAT_GPT_DIR with
    | .error e => (w1, .ok ("Failed to prepare project directory: ".data ++ errMsg e))
    | .ok w2 =>
      let cfg : ServerCfg :=
        ⟨"localhost".data, 8000, .threadingHTTPServer, .simpleHTTPRequestHandler, w2.cwd⟩
      ({ w2 with servers := w2.servers ++ [cfg] },
       .ok "Project server started at http://localhost:8000".data)

deriving instance DecidableEq for Except

/-- An empty world rooted at `/` with an empty current directory. -/
def emptyWorld : World := ⟨[], [[]], [], []⟩

example : (create_folder emptyWorld "site".data).2
    = Except.ok ("Folder created at chat_gpt/site".data) := by decide
example : (create_folder emptyWorld "site".data).1.dirs
    = [[], ["chat_gpt".data], ["chat_gpt".data, "site".data]] := by decide
example : (delete_folder emptyWorld "site".data).2
    = Except.ok ("Folder chat_gpt/site does not exist.".data) := by decide

/-- Nodes of the LangGraph state graph, including the framework's virtual
`START` and `END` markers. -/
inductive Node
  | START
  | rewrite
  | plan
  | chatbot
  | tools
  | END
deriving DecidableEq, Repr

/-- A state graph under construction: named nodes, unconditional edges, and
the sources that received conditional edges (here always with the prebuilt
`tools_condition` router). -/
structure GraphDef where
  nodes : List Node
  edges : List (Node × Node)
  condEdges : List Node
deriving DecidableEq, Repr

/-- `StateGraph(State)`: the empty builder. -/
def StateGraph.empty : GraphDef := ⟨[], [], []⟩

/-- `graph_builder.add_node(...)`. -/
def addNode (g : GraphDef) (n : Node) : GraphDef :=
  { g with nodes := g.nodes ++ [n] }

/-- `graph_builder.add_edge(a, b)`. -/
def addEdge (g : GraphDef) (a b : Node) : GraphDef :=
  { g with edges := g.edges ++ [(a, b)] }

/-- `graph_builder.add_conditional_edges(src, tools_condition)`. -/
def addConditionalEdges (g : GraphDef) (src : Node) : GraphDef :=
  { g with condEdges := g.condEdges ++ [src] }

/-- The builder calls of `graph.py` lines 223-240, in source order:
nodes `rewrite`, `plan`, `chatbot`, `tools`; edges START→rewrite,
rewrite→plan, plan→chatbot; conditional edges out of `chatbot` via
`tools_condition`; edges tools→chatbot and chatbot→END. -/
def graph_builder : GraphDef :=
  addEdge
    (addEdge
      (addConditionalEdges
        (addEdge
          (addEdge
            (addEdge
              (addNode (addNode (addNode (addNode StateGraph.empty .rewrite) .plan) .chatbot)
                .tools)
              .START .rewrite)
            .rewrite .plan)
          .plan .chatbot)
        .chatbot)
      .tools .chatbot)
    .chatbot .END

/-- LangGraph's prebuilt `tools_condition` router: route to the `tools` node
when the last message carries tool calls, else to `END` (modelled from the
framework's documented behavior; the router is third-party code). -/
def tools_condition (hasToolCalls : Bool) : Node :=
  if hasToolCalls then .tools else .END

/-- The executed successors of node `n` in graph `g` when the message just
emitted has tool calls iff `tc`: targets of the unconditional edges out of
`n` plus the target chosen by `tools_condition` when `n` has conditional
edges, with the virtual `END` marker (which executes nothing) dropped. -/
def succsOf (g : GraphDef) (n : Node) (tc : Bool) : List Node :=
  (((g.edges.filter (fun e => decide (e.1 = n))).map Prod.snd)
      ++ (if g.condEdges.contains n then [tools_condition tc] else [])).filter
    (fun m => decide (m ≠ Node.END))

/-- Trace of executed nodes of the compiled graph, starting at node `n`.
The oracle `o` gives, for the `i`-th invocation of the `chatbot` node,
whether the message it emits carries tool calls (the message itself comes
from the external model); `i` counts the `chatbot` invocations so far and
`fuel` bounds the number of steps. -/
def execTrace : Nat → (Nat → Bool) → Nat → Node → List Node
  | 0, _, _, _ => []
  | fuel + 1, o, i, n =>
    n ::
      (match succsOf graph_builder n (o i) with
       | [m] => execTrace fuel o (if n = Node.chatbot then i + 1 else i) m
       | _ => [])

example : graph_builder.edges
    = [(.START, .rewrite), (.rewrite, .plan), (.plan, .chatbot),
       (.tools, .chatbot), (.chatbot, .END)] := by decide
example : execTrace 10 (fun i => decide (i < 1)) 0 .START
    = [.START, .rewrite, .plan, .chatbot, .tools, .chatbot] := by decide
example : execTrace 10 (fun _ => false) 0 .START
    = [.START, .rewrite, .plan, .chatbot] := by decide

/-- A Python value as it appears in a message's `content` attribute: a
string, or a non-string object with its `str(...)` rendering and its
truthiness. -/
inductive PyObj
  | pstr (s : Str)
  | obj (reprS : Str) (isTruthy : Bool)
deriving DecidableEq, Repr

/-- Python `str(v)` (the identity on strings). -/
def pyStr : PyObj → Str
  | .pstr s => s
  | .obj r _ => r

/-- Python truthiness of a `content` value (a string is truthy iff
non-empty). -/
def truthy : PyObj → Bool
  | .pstr s => !s.isEmpty
  | .obj _ b => b

/-- One event of `graph.stream(...)` as inspected by `main` (lines 55-60):
`none` when the event has no `"messages"` key, else the `type` and
`content` of `event["messages"][-1]`. -/
abbrev GEvent := Option (Str × PyObj)

/-- The `last_ai_text` accumulation of `main.py` lines 54-60: fold over the
stream events, keeping the content of the last message whose `type` is
`"ai"` and whose `content` is truthy. -/
def collectLast (evs : List GEvent) : Option PyObj :=
  evs.foldl
    (fun acc ev =>
      match ev with
      | none => acc
      | some (ty, c) => if ty = "ai".data ∧ truthy c = true then some c else acc)
    none

/-- The TTS summary computation of `main.py` lines 62-69: when
`last_ai_text` is truthy, the fixed prefix followed by the first 400
characters of its string rendering, else the fixed completion sentence. -/
def summaryText (last : Option PyObj) : Str :=
  match last with
  | some v =>
    if truthy v = true then "Here is my response: ".data ++ (pyStr v).take 400
    else "I have completed your request.".data
  | none => "I have completed your request.".data

/-- Observable actions of one pass through the voice loop. -/
inductive Act
  | printOut (s : Str)
  | listen
  | recognize
  | graphInvoke (t : Str)
  | speak (s : Str)
deriving DecidableEq, Repr

/-- Outcome of `r.recognize_google(audio)` (line 43): a transcription, one
of the two named recognizer exceptions, or any other exception. -/
inductive RecResult
  | ok (t : Str)
  | unknownValue
  | requestError (m : Str)
  | raised (e : Str)
deriving DecidableEq, Repr

/-- External inputs consumed by one iteration of the voice loop: the
recognizer outcome, the graph's stream events, and whether speech synthesis
raises (caught on lines 72-75). -/
structure IterIn where
  recog : RecResult
  events : List GEvent
  speakErr : Option Str
deriving DecidableEq, Repr

/-- The fixed prints of `main.py` lines 38, 41, 45, 48, 51, 75. -/
def sayPromptMsg : Str := "Say something!".data

/-- See `sayPromptMsg`. -/
def processingMsg : Str := "Processing audio...".data

/-- See `sayPromptMsg`. -/
def unknownValueMsg : Str := "Sorry, I could not understand the audio. Please try again.".data

/-- See `sayPromptMsg`. -/
def requestErrorMsg : Str := "Could not request results from Google Speech Recognition service; ".data

/-- See `sayPromptMsg`. -/
def youSaidMsg : Str := "You Said: ".data

/-- See `sayPromptMsg`. -/
def speakErrMsg : Str := "Error during speech synthesis: ".data

/-- One iteration of the `while True` loop of `main.py` lines 37-75, as the
list of observable actions plus either `.ok ()` (the loop continues) or
`.error e` (an uncaught exception aborts it).  `pretty_print` display inside
the stream loop is not tracked; the graph invocation itself is the
`graphInvoke` action. -/
def iteration (inp : IterIn) : List Act × Except Str Unit :=
  let pre : List Act :=
    [.printOut sayPromptMsg, .listen, .printOut processingMsg, .recognize]
  match inp.recog with
  | .raised e => (pre, .error e)
  | .unknownValue => (pre ++ [.printOut unknownValueMsg], .ok ())
  | .requestError m => (pre ++ [.printOut (requestErrorMsg ++ m)], .ok ())
  | .ok t =>
    let summary := summaryText (collectLast inp.events)
    let speakActs : List Act :=
      match inp.speakErr with
      | none => [.speak summary]
      | some e => [.speak summary, .printOut (speakErrMsg ++ e)]
    (pre ++ [.printOut (youSaidMsg ++ t), .graphInvoke t] ++ speakActs, .ok ())

/-- The `while True` loop itself, unrolled `fuel` times from iteration
index `j`: the concatenated action trace, plus `some e` if an uncaught
exception ended the loop (`none` means the loop is still running after
`fuel` iterations — it has no normal exit). -/
def voiceLoop : Nat → (Nat → IterIn) → Nat → List Act × Option Str
  | 0, _, _ => ([], none)
  | fuel + 1, inps, j =>
    match iteration (inps j) with
    | (tr, .error e) => (tr, some e)
    | (tr, .ok _) =>
      match voiceLoop fuel inps (j + 1) with
      | (tr2, r) => (tr ++ tr2, r)

example :
    iteration ⟨.unknownValue, [], none⟩
      = ([.printOut sayPromptMsg, .listen, .printOut processingMsg, .recognize,
          .printOut unknownValueMsg], .ok ()) := by decide
example :
    summaryText (collectLast [some ("ai".data, .pstr "hello".data)])
      = "Here is my response: hello".data := by decide
example :
    summaryText (collectLast [some ("ai".data, .pstr [])]) =
      "I have completed your request.".data := by decide

lemma pbasename_no_slash (s : Str) : '/' ∉ pbasename s := by
  intro h
  have h1 : '/' ∈ s.reverse.takeWhile (fun c => decide (c ≠ '/')) := by
    simpa [pbasename] using h
  have h2 := List.mem_takeWhile_imp h1
  simp at h2

lemma splitSlash_no_slash (b : Str) (h : '/' ∉ b) : splitSlash b = [b] := by
  induction b with
  | nil => rfl
  | cons c rest ih =>
    have hc : ¬ c = '/' := fun hc => h (hc ▸ List.mem_cons_self c rest)
    have hr : '/' ∉ rest := fun hm => h (List.mem_cons_of_mem _ hm)
    simp [splitSlash, hc, ih hr]

lemma splitSlash_append (a b : Str) (h : '/' ∉ a) :
    splitSlash (a ++ '/' :: b) = a :: splitSlash b := by
  induction a with
  | nil => simp [splitSlash]
  | cons c rest ih =>
    have hc : ¬ c = '/' := fun hc => h (hc ▸ List.mem_cons_self c rest)
    have hr : '/' ∉ rest := fun hm => h (List.mem_cons_of_mem _ hm)
    simp [splitSlash, hc, ih hr]

lemma pjoin_chat_gpt (b : Str) (h : '/' ∉ b) :
    pjoin CHAT_GPT_DIR b = CHAT_GPT_DIR ++ '/' :: b := by
  have h1 : ¬ b.head? = some '/' := by
    cases b with
    | nil => simp
    | cons c rest =>
      simp only [List.head?_cons, Option.some.injEq]
      intro hc
      exact h (hc ▸ List.mem_cons_self c rest)
  have h2 : ¬ (CHAT_GPT_DIR = [] ∨ CHAT_GPT_DIR.getLast? = some '/') := by decide
  simp only [pjoin]
  rw [if_neg h1, if_neg h2]

lemma inside_one (b : Str) (hs : '/' ∉ b) (hd : b ≠ ['.', '.']) :
    insideChatGpt (CHAT_GPT_DIR ++ '/' :: b) = true := by
  have hCG : '/' ∉ CHAT_GPT_DIR := by decide
  unfold insideChatGpt
  rw [splitSlash_append _ _ hCG, splitSlash_no_slash b hs]
  by_cases hb0 : b = []
  · subst hb0; decide
  by_cases hb1 : b = ['.']
  · subst hb1; decide
  simp +decide [normComps, hb0, hb1, hd]

lemma inside_pjoin_base (b : Str) (hs : '/' ∉ b) (hd : b ≠ ['.', '.']) :
    insideChatGpt (pjoin CHAT_GPT_DIR b) = true := by
  rw [pjoin_chat_gpt b hs]
  exact inside_one b hs hd

lemma pjoin_two (bf bn : Str) (hf : '/' ∉ bf) (hn : '/' ∉ bn) (hbf : bf ≠ []) :
    pjoin (CHAT_GPT_DIR ++ '/' :: bf) bn = CHAT_GPT_DIR ++ '/' :: (bf ++ '/' :: bn) := by
  have h1 : ¬ bn.head? = some '/' := by
    cases bn with
    | nil => simp
    | cons c rest =>
      simp only [List.head?_cons, Option.some.injEq]
      intro hc
      exact hn (hc ▸ List.mem_cons_self c rest)
  have hlast : (CHAT_GPT_DIR ++ '/' :: bf).getLast? = bf.getLast? := by
    rw [List.getLast?_append_cons]
    cases bf with
    | nil => exact absurd rfl hbf
    | cons c rest => rw [List.getLast?_cons_cons]
  have h2 : ¬ ((CHAT_GPT_DIR ++ '/' :: bf) = []
      ∨ (CHAT_GPT_DIR ++ '/' :: bf).getLast? = some '/') := by
    rintro (h | h)
    · simp at h
    · rw [hlast] at h
      obtain ⟨hne, heq⟩ := List.mem_getLast?_eq_getLast (show '/' ∈ bf.getLast? from h)
      refine hf ?_
      rw [heq]
      exact List.getLast_mem hne
  simp only [pjoin]
  rw [if_neg h1, if_neg h2]
  simp

lemma inside_two (bf bn : Str) (hf : '/' ∉ bf) (hn : '/' ∉ bn)
    (hdf : bf ≠ ['.', '.']) (hdn : bn ≠ ['.', '.']) :
    insideChatGpt (CHAT_GPT_DIR ++ '/' :: (bf ++ '/' :: bn)) = true := by
  have hCG : '/' ∉ CHAT_GPT_DIR := by decide
  unfold insideChatGpt
  rw [splitSlash_append _ _ hCG, splitSlash_append _ _ hf, splitSlash_no_slash bn hn]
  by_cases hf0 : bf = []
  · subst hf0
    by_cases hn0 : bn = []
    · subst hn0; decide
    by_cases hn1 : bn = ['.']
    · subst hn1; decide
    simp +decide [normComps, hn0, hn1, hdn]
  by_cases hf1 : bf = ['.']
  · subst hf1
    by_cases hn0 : bn = []
    · subst hn0; decide
    by_cases hn1 : bn = ['.']
    · subst hn1; decide
    simp +decide [normComps, hn0, hn1, hdn]
  by_cases hn0 : bn = []
  · subst hn0
    simp +decide [normComps, hf0, hf1, hdf]
  by_cases hn1 : bn = ['.']
  · subst hn1
    simp +decide [normComps, hf0, hf1, hdf]
  simp +decide [normComps, hf0, hf1, hdf, hn0, hn1, hdn]

lemma head?_ne_slash (b : Str) (h : '/' ∉ b) : ¬ b.head? = some '/' := by
  cases b with
  | nil => simp
  | cons c rest =>
    simp only [List.head?_cons, Option.some.injEq]
    intro hc
    exact h (hc ▸ List.mem_cons_self c rest)

lemma pjoin_slash_end (bn : Str) (hn : '/' ∉ bn) :
    pjoin (CHAT_GPT_DIR ++ ['/']) bn = CHAT_GPT_DIR ++ '/' :: bn := by
  have h2 : (CHAT_GPT_DIR ++ ['/']) = [] ∨ (CHAT_GPT_DIR ++ ['/']).getLast? = some '/' := by
    decide
  simp only [pjoin]
  rw [if_neg (head?_ne_slash bn hn), if_pos h2]
  simp

lemma inside_file_path (fn : Str) (o : Option Str)
    (hn : pbasename fn ≠ ['.', '.'])
    (hf : ∀ f, o = some f → pbasename (pstrip f) ≠ ['.', '.']) :
    insideChatGpt (pjoin (subfolder_base o) (pbasename fn)) = true := by
  match o with
  | none =>
    exact inside_pjoin_base _ (pbasename_no_slash fn) hn
  | some f =>
    by_cases h0 : f = []
    · simp only [subfolder_base, if_pos h0]
      exact inside_pjoin_base _ (pbasename_no_slash fn) hn
    · have hbf := pbasename_no_slash (pstrip f)
      have hdf := hf f rfl
      simp only [subfolder_base, if_neg h0]
      rw [pjoin_chat_gpt _ hbf]
      by_cases hbf0 : pbasename (pstrip f) = []
      · rw [hbf0]
        rw [show CHAT_GPT_DIR ++ '/' :: ([] : Str) = CHAT_GPT_DIR ++ ['/'] from rfl]
        rw [pjoin_slash_end _ (pbasename_no_slash fn)]
        exact inside_one _ (pbasename_no_slash fn) hn
      · rw [pjoin_two _ _ hbf (pbasename_no_slash fn) hbf0]
        exact inside_two _ _ hbf (pbasename_no_slash fn) hdf hn

/-- C1 counterexample: with `folder_name = ".."` the target of
`delete_folder` is `chat_gpt/..`, which lies outside the `chat_gpt/`
directory (it normalizes to the working directory itself); running
`delete_folder` there removes directories outside `chat_gpt/`
(here the unrelated `other_project` and everything else under the
working directory), so the stated confinement is false. -/
theorem claim_C1_counterexample :
    delete_folder_path "..".data = "chat_gpt/..".data
      ∧ insideChatGpt (delete_folder_path "..".data) = false
      ∧ (delete_folder ⟨[], [[], ["chat_gpt".data], ["other_project".data]], [], []⟩
          "..".data).1.dirs = [] := by
  refine ⟨by decide, by decide, by decide⟩

/-- C1 (amended): each of `create_folder`, `create_code_file`,
`delete_folder` and `delete_file` computes its target path as the join of
`"chat_gpt"` with `os.path.basename` of the stripped argument (and, for
files, a basename of the filename), and the resulting path stays inside the
`chat_gpt/` directory for every argument whose computed basename is not
`".."`; a `".."` basename escapes (see the counterexample). -/
theorem claim_C1_amended :
    (∀ n : Str, pbasename (pstrip n) ≠ ['.', '.'] →
        insideChatGpt (create_folder_path n) = true)
      ∧ (∀ (fn : Str) (o : Option Str), pbasename fn ≠ ['.', '.'] →
          (∀ f, o = some f → pbasename (pstrip f) ≠ ['.', '.']) →
          insideChatGpt (create_code_file_path fn o) = true)
      ∧ (∀ n : Str, pbasename (pstrip n) ≠ ['.', '.'] →
          insideChatGpt (delete_folder_path n) = true)
      ∧ (∀ (fn : Str) (o : Option Str), pbasename fn ≠ ['.', '.'] →
          (∀ f, o = some f → pbasename (pstrip f) ≠ ['.', '.']) →
          insideChatGpt (delete_file_path fn o) = true) := by
  refine ⟨fun n h => inside_pjoin_base _ (pbasename_no_slash _) h,
          fun fn o hn hf => inside_file_path fn o hn hf,
          fun n h => inside_pjoin_base _ (pbasename_no_slash _) h,
          fun fn o hn hf => inside_file_path fn o hn hf⟩

/-- Witness for C1 (amended) at concrete arguments. -/
theorem claim_C1_amended_witness :
    insideChatGpt (create_folder_path "  my_site ".data) = true
      ∧ insideChatGpt (create_code_file_path "index.html".data (some "site".data)) = true
      ∧ insideChatGpt (delete_folder_path "site".data) = true
      ∧ insideChatGpt (delete_file_path "index.html".data none) = true :=
  ⟨claim_C1_amended.1 _ (by decide),
   claim_C1_amended.2.1 _ _ (by decide) (fun f hf => by cases hf; decide),
   claim_C1_amended.2.2.1 _ (by decide),
   claim_C1_amended.2.2.2 _ _ (by decide) (fun f hf => by cases hf)⟩

/-- C2 counterexample: the builder also holds a fifth unconditional edge,
chatbot → END (`graph.py` line 240), so the claim's enumeration of the
unconditional edges (START→rewrite, rewrite→plan, plan→chatbot,
tools→chatbot) does not cover every edge of the compiled graph. -/
theorem claim_C2_counterexample :
    ¬ (∀ e ∈ graph_builder.edges,
        e ∈ [(Node.START, Node.rewrite), (Node.rewrite, Node.plan),
             (Node.plan, Node.chatbot), (Node.tools, Node.chatbot)]) := by
  decide

/-- C2 (amended): the compiled graph is a four-node pipeline (rewrite, plan,
chatbot, tools) whose only branch point is the single conditional edge out
of chatbot (via `tools_condition`, choosing between the tool node and
ending); every other edge is unconditional — START→rewrite, rewrite→plan,
plan→chatbot, tools→chatbot, plus a redundant unconditional chatbot→END
edge added on line 240. -/
theorem claim_C2_amended :
    graph_builder.nodes = [Node.rewrite, Node.plan, Node.chatbot, Node.tools]
      ∧ graph_builder.edges
          = [(Node.START, Node.rewrite), (Node.rewrite, Node.plan),
             (Node.plan, Node.chatbot), (Node.tools, Node.chatbot),
             (Node.chatbot, Node.END)]
      ∧ graph_builder.condEdges = [Node.chatbot] := by
  refine ⟨by decide, by decide, by decide⟩

lemma succsOf_START (b : Bool) : succsOf graph_builder .START b = [.rewrite] := by
  cases b <;> rfl

lemma succsOf_rewrite (b : Bool) : succsOf graph_builder .rewrite b = [.plan] := by
  cases b <;> rfl

lemma succsOf_plan (b : Bool) : succsOf graph_builder .plan b = [.chatbot] := by
  cases b <;> rfl

lemma succsOf_tools (b : Bool) : succsOf graph_builder .tools b = [.chatbot] := by
  cases b <;> rfl

lemma succsOf_chatbot (b : Bool) :
    succsOf graph_builder .chatbot b = if b then [.tools] else [] := by
  cases b <;> rfl

lemma execTrace_chatbot (k : Nat) :
    ∀ (o : Nat → Bool) (i fuel : Nat),
      (∀ j, j < k → o (i + j) = true) → o (i + k) = false → 1 + 2 * k ≤ fuel →
      execTrace fuel o i .chatbot
        = (List.replicate k [Node.chatbot, Node.tools]).flatten ++ [Node.chatbot] := by
  induction k with
  | zero =>
    intro o i fuel h1 h2 hf
    obtain ⟨f, rfl⟩ : ∃ f, fuel = f + 1 := ⟨fuel - 1, by omega⟩
    rw [Nat.add_zero] at h2
    simp [execTrace, succsOf_chatbot, h2]
  | succ k ih =>
    intro o i fuel h1 h2 hf
    obtain ⟨f, rfl⟩ : ∃ f, fuel = f + 2 := ⟨fuel - 2, by omega⟩
    have hoi : o i = true := by
      have := h1 0 (by omega)
      simpa using this
    have h1' : ∀ j, j < k → o (i + 1 + j) = true := by
      intro j hj
      have := h1 (j + 1) (by omega)
      have he : i + (j + 1) = i + 1 + j := by omega
      rwa [he] at this
    have h2' : o (i + 1 + k) = false := by
      have he : i + 1 + k = i + (k + 1) := by omega
      rwa [he]
    have step : execTrace (f + 2) o i .chatbot
        = Node.chatbot :: Node.tools :: execTrace f o (i + 1) .chatbot := by
      simp [execTrace, hoi, succsOf_chatbot, succsOf_tools]
    rw [step, ih o (i + 1) f h1' h2' (by omega)]
    simp [List.replicate_succ]

/-- C4: every execution of the compiled graph visits, in order, rewrite,
plan, chatbot, and then alternates tools/chatbot as long as the chatbot's
emitted message carries tool calls, ending right after the first chatbot
message without tool calls.  `o i` says whether the `i`-th chatbot message
carries tool calls, `k` is the first invocation without tool calls, and
`fuel` (at least the trace length) bounds the executed steps. -/
theorem claim_C4_order (o : Nat → Bool) (k fuel : Nat)
    (h1 : ∀ j, j < k → o j = true) (h2 : o k = false) (hf : 4 + 2 * k ≤ fuel) :
    execTrace fuel o 0 .START
      = [Node.START, Node.rewrite, Node.plan]
          ++ ((List.replicate k [Node.chatbot, Node.tools]).flatten ++ [Node.chatbot]) := by
  obtain ⟨f, rfl⟩ : ∃ f, fuel = f + 3 := ⟨fuel - 3, by omega⟩
  have step : execTrace (f + 3) o 0 .START
      = Node.START :: Node.rewrite :: Node.plan :: execTrace f o 0 .chatbot := by
    simp [execTrace, succsOf_START, succsOf_rewrite, succsOf_plan]
  rw [step, execTrace_chatbot k o 0 f (by intro j hj; simpa using h1 j hj)
    (by simpa using h2) (by omega)]
  simp

/-- Witness for C4 at a concrete oracle: one tool-call round, then stop. -/
theorem claim_C4_order_witness :
    (fun i => decide (i < 1)) 1 = false
      ∧ 4 + 2 * 1 ≤ 10
      ∧ execTrace 10 (fun i => decide (i < 1)) 0 .START
          = [Node.START, Node.rewrite, Node.plan]
              ++ ((List.replicate 1 [Node.chatbot, Node.tools]).flatten ++ [Node.chatbot]) :=
  ⟨by decide, by decide,
   claim_C4_order (fun i => decide (i < 1)) 1 10
     (fun j hj => by
       have hj0 : j = 0 := by omega
       subst hj0
       decide)
     (by decide) (by decide)⟩

/-- C3 counterexample: in a world where `chat_gpt` exists as a regular file,
the preliminary `os.makedirs(CHAT_GPT_DIR, exist_ok=True)` of
`create_folder` (line 24) raises `FileExistsError` outside the `try`, so the
tool propagates the exception instead of returning a string. -/
theorem claim_C3_counterexample :
    (create_folder ⟨[], [[]], [(["chat_gpt".data], [])], []⟩ "site".data).2
      = Except.error PyErr.fileExistsError := by
  decide

/-- C3 (amended): each tool's `try`/`except` converts the wrapped
operation's exception into a string, so `delete_folder` and `delete_file`
return a string on every input; `create_folder` and `create_code_file`
return a string whenever their preliminary base-directory `os.makedirs`
(which sits outside the `try`, lines 24 and 46) succeeds — an exception
there propagates to the caller. -/
theorem claim_C3_amended :
    (∀ (w : World) (n : Str), ∃ s, (delete_folder w n).2 = Except.ok s)
      ∧ (∀ (w : World) (fn : Str) (o : Option Str),
          ∃ s, (delete_file w fn o).2 = Except.ok s)
      ∧ (∀ (w : World) (n : Str) (w1 : World),
          makedirs w CHAT_GPT_DIR true = Except.ok w1 →
          ∃ s, (create_folder w n).2 = Except.ok s)
      ∧ (∀ (w : World) (fn c : Str) (o : Option Str) (w1 : World),
          makedirs w (subfolder_base o) true = Except.ok w1 →
          ∃ s, (create_code_file w fn c o).2 = Except.ok s) := by
  refine ⟨?_, ?_, ?_, ?_⟩
  · intro w n
    unfold delete_folder
    by_cases h : pathExistsW w (delete_folder_path n) = true
    · rw [if_pos h]
      cases hr : rmtree w (delete_folder_path n) with
      | ok w1 => exact ⟨_, rfl⟩
      | error e => exact ⟨_, rfl⟩
    · rw [if_neg h]
      exact ⟨_, rfl⟩
  · intro w fn o
    unfold delete_file
    by_cases h : pathExistsW w (delete_file_path fn o) = true
    · rw [if_pos h]
      cases hr : removeFile w (delete_file_path fn o) with
      | ok w1 => exact ⟨_, rfl⟩
      | error e => exact ⟨_, rfl⟩
    · rw [if_neg h]
      exact ⟨_, rfl⟩
  · intro w n w1 h
    unfold create_folder
    simp only [h]
    cases h2 : makedirs w1 (create_folder_path n) true with
    | ok w2 => exact ⟨_, rfl⟩
    | error e => exact ⟨_, rfl⟩
  · intro w fn c o w1 h
    unfold create_code_file
    simp only [h]
    cases h2 : openWrite w1 (pjoin (subfolder_base o) (pbasename fn)) c with
    | ok w2 => exact ⟨_, rfl⟩
    | error e => exact ⟨_, rfl⟩

/-- Witness for C3 (amended) at concrete worlds and arguments. -/
theorem claim_C3_amended_witness :
    (∃ s, (delete_folder emptyWorld "site".data).2 = Except.ok s)
      ∧ (∃ s, (delete_file emptyWorld "a.html".data none).2 = Except.ok s)
      ∧ (∃ s, (create_folder emptyWorld "site".data).2 = Except.ok s)
      ∧ (∃ s, (create_code_file emptyWorld "a.html".data "hi".data none).2 = Except.ok s) :=
  ⟨claim_C3_amended.1 emptyWorld _,
   claim_C3_amended.2.1 emptyWorld _ none,
   claim_C3_amended.2.2.1 emptyWorld _ ⟨[], [[], ["chat_gpt".data]], [], []⟩ (by decide),
   claim_C3_amended.2.2.2 emptyWorld _ _ none ⟨[], [[], ["chat_gpt".data]], [], []⟩ (by decide)⟩

/-- C9: on a missing target, `delete_folder` and `delete_file` return the
`"... does not exist."` message, raise nothing, and return the world
completely unchanged. -/
theorem claim_C9_missing_target (w : World) (n fn : Str) (o : Option Str) :
    (pathExistsW w (delete_folder_path n) = false →
        delete_folder w n
          = (w, Except.ok ("Folder ".data ++ delete_folder_path n
              ++ " does not exist.".data)))
      ∧ (pathExistsW w (delete_file_path fn o) = false →
          delete_file w fn o
            = (w, Except.ok ("File ".data ++ delete_file_path fn o
                ++ " does not exist.".data))) := by
  constructor
  · intro h
    unfold delete_folder
    rw [if_neg (by simp [h])]
  · intro h
    unfold delete_file
    rw [if_neg (by simp [h])]

/-- Witness for C9 at the empty world. -/
theorem claim_C9_missing_target_witness :
    pathExistsW emptyWorld (delete_folder_path "site".data) = false
      ∧ delete_folder emptyWorld "site".data
          = (emptyWorld, Except.ok ("Folder ".data ++ delete_folder_path "site".data
              ++ " does not exist.".data)) :=
  ⟨by decide,
   (claim_C9_missing_target emptyWorld "site".data "site".data none).1 (by decide)⟩

lemma makedirs_state (w : World) (p : Str) (b : Bool) (w1 : World)
    (h : makedirs w p b = Except.ok w1) :
    w1.cwd = w.cwd ∧ w1.servers = w.servers ∧ w1.files = w.files := by
  simp only [makedirs] at h
  split at h
  · simp at h
  · split at h
    · simp at h
    · split at h
      · split at h
        · injection h with h'
          subst h'
          exact ⟨rfl, rfl, rfl⟩
        · simp at h
      · injection h with h'
        subst h'
        exact ⟨rfl, rfl, rfl⟩

lemma openWrite_state (w : World) (p c : Str) (w1 : World)
    (h : openWrite w p c = Except.ok w1) :
    w1.cwd = w.cwd ∧ w1.servers = w.servers := by
  simp only [openWrite] at h
  split at h
  · simp at h
  · split at h
    · simp at h
    · split at h
      · simp at h
      · injection h with h'
        subst h'
        exact ⟨rfl, rfl⟩

lemma rmtree_state (w : World) (p : Str) (w1 : World)
    (h : rmtree w p = Except.ok w1) :
    w1.cwd = w.cwd ∧ w1.servers = w.servers := by
  simp only [rmtree] at h
  split at h
  · injection h with h'
    subst h'
    exact ⟨rfl, rfl⟩
  · split at h <;> simp at h

lemma removeFile_state (w : World) (p : Str) (w1 : World)
    (h : removeFile w p = Except.ok w1) :
    w1.cwd = w.cwd ∧ w1.servers = w.servers := by
  simp only [removeFile] at h
  split at h
  · simp at h
  · split at h
    · injection h with h'
      subst h'
      exact ⟨rfl, rfl⟩
    · simp at h

lemma chdir_ok (w : World) (p : Str) (w1 : World)
    (h : chdir w p = Except.ok w1) : w1 = { w with cwd := resolveP w p } := by
  simp only [chdir] at h
  split at h
  · injection h with h'
    exact h'.symm
  · split at h <;> simp at h

lemma create_folder_cwd (v : World) (n : Str) : (create_folder v n).1.cwd = v.cwd := by
  unfold create_folder
  cases h1 : makedirs v CHAT_GPT_DIR true with
  | error e => rfl
  | ok w1 =>
    dsimp only
    cases h2 : makedirs w1 (create_folder_path n) true with
    | ok w2 =>
      show w2.cwd = v.cwd
      rw [(makedirs_state w1 _ _ w2 h2).1, (makedirs_state v _ _ w1 h1).1]
    | error e =>
      show w1.cwd = v.cwd
      rw [(makedirs_state v _ _ w1 h1).1]

lemma create_code_file_cwd (v : World) (fn c : Str) (o : Option Str) :
    (create_code_file v fn c o).1.cwd = v.cwd := by
  unfold create_code_file
  dsimp only
  cases h1 : makedirs v (subfolder_base o) true with
  | error e => rfl
  | ok w1 =>
    dsimp only
    cases h2 : openWrite w1 (pjoin (subfolder_base o) (pbasename fn)) c with
    | ok w2 =>
      show w2.cwd = v.cwd
      rw [(openWrite_state w1 _ _ w2 h2).1, (makedirs_state v _ _ w1 h1).1]
    | error e =>
      show w1.cwd = v.cwd
      rw [(makedirs_state v _ _ w1 h1).1]

lemma delete_folder_cwd (v : World) (n : Str) : (delete_folder v n).1.cwd = v.cwd := by
  unfold delete_folder
  by_cases h : pathExistsW v (delete_folder_path n) = true
  · rw [if_pos h]
    cases h2 : rmtree v (delete_folder_path n) with
    | ok w1 =>
      dsimp only
      rw [(rmtree_state v _ w1 h2).1]
    | error e => rfl
  · rw [if_neg h]

lemma delete_file_cwd (v : World) (fn : Str) (o : Option Str) :
    (delete_file v fn o).1.cwd = v.cwd := by
  unfold delete_file
  by_cases h : pathExistsW v (delete_file_path fn o) = true
  · rw [if_pos h]
    cases h2 : removeFile v (delete_file_path fn o) with
    | ok w1 =>
      dsimp only
      rw [(removeFile_state v _ w1 h2).1]
    | error e => rfl
  · rw [if_neg h]

lemma run_project_ok (w w' : World)
    (h : run_project w
        = (w', Except.ok "Project server started at http://localhost:8000".data)) :
    ∃ w1, makedirs w CHAT_GPT_DIR true = Except.ok w1
      ∧ w' = { w1 with
               cwd := normComps (w.cwd ++ splitSlash CHAT_GPT_DIR),
               servers := w1.servers
                 ++ [⟨"localhost".data, 8000, ServerClass.threadingHTTPServer,
                      HandlerClass.simpleHTTPRequestHandler,
                      normComps (w.cwd ++ splitSlash CHAT_GPT_DIR)⟩] } := by
  simp only [run_project] at h
  cases hmk : makedirs w CHAT_GPT_DIR true with
  | error e =>
    simp only [hmk] at h
    rw [Prod.mk.injEq] at h
    obtain ⟨hw, hm⟩ := h
    injection hm with hm'
    cases e <;> exact absurd hm' (by decide)
  | ok w1 =>
    simp only [hmk] at h
    cases hch : chdir w1 CHAT_GPT_DIR with
    | error e =>
      simp only [hch] at h
      rw [Prod.mk.injEq] at h
      obtain ⟨hw, hm⟩ := h
      injection hm with hm'
      cases e <;> exact absurd hm' (by decide)
    | ok w2 =>
      simp only [hch] at h
      rw [Prod.mk.injEq] at h
      obtain ⟨hw, hm⟩ := h
      refine ⟨w1, rfl, ?_⟩
      rw [← hw]
      have h2 := chdir_ok w1 _ w2 hch
      have hr : resolveP w1 CHAT_GPT_DIR = normComps (w.cwd ++ splitSlash CHAT_GPT_DIR) := by
        simp only [resolveP]
        rw [if_neg (by decide), (makedirs_state w _ _ w1 hmk).1]
      rw [h2, hr]

/-- C6 counterexample: the server started by `run_project` is a
`ThreadingHTTPServer`, which is not single-threaded (it spawns a thread per
request), so the claim's "single-threaded HTTP file server" is false. -/
theorem claim_C6_counterexample :
    ((run_project emptyWorld).1.servers.map (fun c => isSingleThreaded c.serverClass))
      = [false] := by
  decide

/-- C6 (amended): on success, `run_project` serves files from the
`chat_gpt/` folder (it resolves `chat_gpt` against the working directory,
chdirs there, and the handler serves that directory) at host `localhost`,
port `8000`, using the standard library's `ThreadingHTTPServer` — a
threaded, not single-threaded, HTTP file server — with
`SimpleHTTPRequestHandler`. -/
theorem claim_C6_amended (w w' : World) (m : Str)
    (h : run_project w = (w', Except.ok m))
    (hs : m = "Project server started at http://localhost:8000".data) :
    w'.servers = w.servers
        ++ [⟨"localhost".data, 8000, ServerClass.threadingHTTPServer,
             HandlerClass.simpleHTTPRequestHandler,
             normComps (w.cwd ++ splitSlash CHAT_GPT_DIR)⟩]
      ∧ isSingleThreaded ServerClass.threadingHTTPServer = false := by
  subst hs
  obtain ⟨w1, hmk, hw⟩ := run_project_ok w w' h
  refine ⟨?_, rfl⟩
  rw [hw]
  dsimp only
  rw [(makedirs_state w _ _ w1 hmk).2.1]

/-- Witness for C6 (amended) at the empty world. -/
theorem claim_C6_amended_witness :
    run_project emptyWorld
        = ((run_project emptyWorld).1,
           Except.ok "Project server started at http://localhost:8000".data)
      ∧ (run_project emptyWorld).1.servers
          = emptyWorld.servers
              ++ [⟨"localhost".data, 8000, ServerClass.threadingHTTPServer,
                   HandlerClass.simpleHTTPRequestHandler,
                   normComps (emptyWorld.cwd ++ splitSlash CHAT_GPT_DIR)⟩] :=
  ⟨by decide,
   (claim_C6_amended emptyWorld (run_project emptyWorld).1 _ (by decide) rfl).1⟩

/-- C8: when `run_project` succeeds it sets the working directory to
`chat_gpt/` (resolved against the previous working directory) and returns
without restoring it; none of the other tools ever modifies the working
directory, so the change persists and every later relative path resolves
under the new working directory. -/
theorem claim_C8_cwd_persists (w w' : World) (m : Str)
    (h : run_project w = (w', Except.ok m))
    (hs : m = "Project server started at http://localhost:8000".data) :
    w'.cwd = normComps (w.cwd ++ splitSlash CHAT_GPT_DIR)
      ∧ (∀ r : Str, ¬ r.head? = some '/' →
          resolveP w' r
            = normComps (normComps (w.cwd ++ splitSlash CHAT_GPT_DIR) ++ splitSlash r))
      ∧ (∀ (v : World) (n : Str), (create_folder v n).1.cwd = v.cwd)
      ∧ (∀ (v : World) (fn c : Str) (o : Option Str),
          (create_code_file v fn c o).1.cwd = v.cwd)
      ∧ (∀ (v : World) (n : Str), (delete_folder v n).1.cwd = v.cwd)
      ∧ (∀ (v : World) (fn : Str) (o : Option Str), (delete_file v fn o).1.cwd = v.cwd) := by
  subst hs
  obtain ⟨w1, hmk, hw⟩ := run_project_ok w w' h
  have key : w'.cwd = normComps (w.cwd ++ splitSlash CHAT_GPT_DIR) := by
    rw [hw]
  refine ⟨key, ?_, create_folder_cwd, create_code_file_cwd, delete_folder_cwd,
    delete_file_cwd⟩
  intro r hr
  simp only [resolveP]
  rw [if_neg hr, key]

/-- Witness for C8 at the empty world. -/
theorem claim_C8_cwd_persists_witness :
    run_project emptyWorld
        = ((run_project emptyWorld).1,
           Except.ok "Project server started at http://localhost:8000".data)
      ∧ (run_project emptyWorld).1.cwd
          = normComps (emptyWorld.cwd ++ splitSlash CHAT_GPT_DIR) :=
  ⟨by decide,
   (claim_C8_cwd_persists emptyWorld (run_project emptyWorld).1 _ (by decide) rfl).1⟩

/-- C5: the transcription step catches exactly the two enumerated recognizer
exceptions and nothing more: on UnknownValueError or RequestError the
iteration prints a message and continues to the next loop pass, with exactly
one recognition attempt (no retry) and without invoking the agent graph; any
other exception from recognition is not caught there and aborts the loop. -/
theorem claim_C5_recognizer (inp : IterIn) (m e : Str) :
    (inp.recog = RecResult.unknownValue →
        iteration inp
            = ([.printOut sayPromptMsg, .listen, .printOut processingMsg, .recognize,
                .printOut unknownValueMsg], Except.ok ())
          ∧ (iteration inp).1.count Act.recognize = 1
          ∧ ∀ t, Act.graphInvoke t ∉ (iteration inp).1)
      ∧ (inp.recog = RecResult.requestError m →
          iteration inp
              = ([.printOut sayPromptMsg, .listen, .printOut processingMsg, .recognize,
                  .printOut (requestErrorMsg ++ m)], Except.ok ())
            ∧ (iteration inp).1.count Act.recognize = 1
            ∧ ∀ t, Act.graphInvoke t ∉ (iteration inp).1)
      ∧ (inp.recog = RecResult.raised e →
          iteration inp
            = ([.printOut sayPromptMsg, .listen, .printOut processingMsg, .recognize],
               Except.error e)) := by
  refine ⟨?_, ?_, ?_⟩
  · intro h
    have ht : iteration inp
        = ([.printOut sayPromptMsg, .listen, .printOut processingMsg, .recognize,
            .printOut unknownValueMsg], Except.ok ()) := by
      unfold iteration
      rw [h]
      rfl
    refine ⟨ht, by rw [ht]; rfl, ?_⟩
    intro t
    rw [ht]
    simp
  · intro h
    have ht : iteration inp
        = ([.printOut sayPromptMsg, .listen, .printOut processingMsg, .recognize,
            .printOut (requestErrorMsg ++ m)], Except.ok ()) := by
      unfold iteration
      rw [h]
      rfl
    refine ⟨ht, by rw [ht]; rfl, ?_⟩
    intro t
    rw [ht]
    simp
  · intro h
    unfold iteration
    rw [h]

/-- Witness for C5 at concrete recognizer outcomes. -/
theorem claim_C5_recognizer_witness :
    iteration ⟨RecResult.unknownValue, [], none⟩
        = ([.printOut sayPromptMsg, .listen, .printOut processingMsg, .recognize,
            .printOut unknownValueMsg], Except.ok ())
      ∧ iteration ⟨RecResult.raised "boom".data, [], none⟩
          = ([.printOut sayPromptMsg, .listen, .printOut processingMsg, .recognize],
             Except.error "boom".data) :=
  ⟨((claim_C5_recognizer ⟨RecResult.unknownValue, [], none⟩ [] []).1 rfl).1,
   (claim_C5_recognizer ⟨RecResult.raised "boom".data, [], none⟩ [] "boom".data).2.2 rfl⟩

/-- The listen → transcribe → respond → speak cycle the spec describes for
one successful pass of the voice loop, with the prints the code makes:
prompt, listen, processing print, one recognition, the transcription print,
one graph invocation, then speech of the summary (plus the error print when
speech synthesis raises). -/
def cycleActs (t summary : Str) (se : Option Str) : List Act :=
  [.printOut sayPromptMsg, .listen, .printOut processingMsg, .recognize,
   .printOut (youSaidMsg ++ t), .graphInvoke t]
    ++ (match se with
        | none => [.speak summary]
        | some e => [.speak summary, .printOut (speakErrMsg ++ e)])

lemma iteration_ok (inp : IterIn) (t : Str) (h : inp.recog = RecResult.ok t) :
    iteration inp
      = (cycleActs t (summaryText (collectLast inp.events)) inp.speakErr,
         Except.ok ()) := by
  unfold iteration cycleActs
  rw [h]
  cases hse : inp.speakErr with
  | none => rfl
  | some e => rfl

lemma voiceLoop_all_ok (inps : Nat → IterIn) (texts : Nat → Str)
    (h : ∀ j, (inps j).recog = RecResult.ok (texts j)) :
    ∀ fuel j : Nat,
      voiceLoop fuel inps j
        = ((List.range' j fuel).flatMap
             (fun i => cycleActs (texts i) (summaryText (collectLast (inps i).events))
                 (inps i).speakErr),
           none) := by
  intro fuel
  induction fuel with
  | zero => intro j; rfl
  | succ f ih =>
    intro j
    simp only [voiceLoop]
    rw [iteration_ok (inps j) (texts j) (h j)]
    dsimp only
    rw [ih (j + 1)]
    rw [List.range'_succ, List.flatMap_cons]

/-- C7: with every recognition succeeding, the entry-point loop is an
unbounded blocking cycle: iteration `j` performs, in order, the microphone
listen, the (single) transcription, the graph invocation with the
transcribed text, and the speech of the summary, each step only after the
previous one, and after any number `fuel` of iterations the loop is still
running (`none`: it has no normal exit). -/
theorem claim_C7_cycle (inps : Nat → IterIn) (texts : Nat → Str) (fuel : Nat)
    (h : ∀ j, (inps j).recog = RecResult.ok (texts j)) :
    voiceLoop fuel inps 0
      = ((List.range fuel).flatMap
           (fun j => cycleActs (texts j) (summaryText (collectLast (inps j).events))
               (inps j).speakErr),
         none) := by
  rw [List.range_eq_range']
  exact voiceLoop_all_ok inps texts h fuel 0

/-- Witness for C7: two iterations of a concrete run. -/
theorem claim_C7_cycle_witness :
    voiceLoop 2
        (fun _ => ⟨RecResult.ok "hi".data, [some ("ai".data, PyObj.pstr "ok".data)], none⟩) 0
      = ((List.range 2).flatMap
           (fun j => cycleActs ((fun _ : Nat => "hi".data) j)
               (summaryText (collectLast
                 ((fun _ : Nat => (⟨RecResult.ok "hi".data,
                     [some ("ai".data, PyObj.pstr "ok".data)], none⟩ : IterIn)) j).events))
               ((fun _ : Nat => (⟨RecResult.ok "hi".data,
                   [some ("ai".data, PyObj.pstr "ok".data)], none⟩ : IterIn)) j).speakErr),
         none) :=
  claim_C7_cycle
    (fun _ => ⟨RecResult.ok "hi".data, [some ("ai".data, PyObj.pstr "ok".data)], none⟩)
    (fun _ => "hi".data) 2 (fun _ => rfl)

lemma collectLast_go_truthy :
    ∀ (evs : List GEvent) (acc : Option PyObj),
      (∀ v, acc = some v → truthy v = true) →
      ∀ v,
        evs.foldl
          (fun acc ev =>
            match ev with
            | none => acc
            | some (ty, c) => if ty = "ai".data ∧ truthy c = true then some c else acc)
          acc = some v →
        truthy v = true := by
  intro evs
  induction evs with
  | nil =>
    intro acc hacc v h
    rw [List.foldl_nil] at h
    exact hacc v h
  | cons ev rest ih =>
    intro acc hacc v h
    rw [List.foldl_cons] at h
    cases ev with
    | none => exact ih _ hacc v h
    | some p =>
      obtain ⟨ty, c⟩ := p
      refine ih _ ?_ v h
      intro u hu
      dsimp only at hu
      by_cases hc : ty = "ai".data ∧ truthy c = true
      · rw [if_pos hc] at hu
        injection hu with hu'
        rw [← hu']
        exact hc.2
      · rw [if_neg hc] at hu
        exact hacc u hu

/-- C10: the text handed to speech synthesis is bounded and determined by the
last collected AI message: when one was collected it is truthy and the
summary equals the fixed prefix followed by the first 400 characters of its
string rendering (at most 421 characters in total); when none was collected
the summary is exactly the fixed completion sentence. -/
theorem claim_C10_summary (evs : List GEvent) :
    (∀ v, collectLast evs = some v →
        truthy v = true
          ∧ summaryText (collectLast evs)
              = "Here is my response: ".data ++ (pyStr v).take 400
          ∧ (summaryText (collectLast evs)).length ≤ 421)
      ∧ (collectLast evs = none →
          summaryText (collectLast evs) = "I have completed your request.".data) := by
  constructor
  · intro v hv
    have ht : truthy v = true := by
      have hv' := hv
      unfold collectLast at hv'
      exact collectLast_go_truthy evs none (fun u hu => by cases hu) v hv'
    have hsum : summaryText (collectLast evs)
        = "Here is my response: ".data ++ (pyStr v).take 400 := by
      rw [hv]
      show (if truthy v = true then "Here is my response: ".data ++ (pyStr v).take 400
            else "I have completed your request.".data)
          = "Here is my response: ".data ++ (pyStr v).take 400
      rw [if_pos ht]
    refine ⟨ht, hsum, ?_⟩
    rw [hsum]
    have h1 : ("Here is my response: ".data).length = 21 := by decide
    have h2 : ((pyStr v).take 400).length ≤ 400 := by
      rw [List.length_take]
      exact min_le_left _ _
    rw [List.length_append, h1]
    omega
  · intro hn
    rw [hn]
    rfl

/-- Witness for C10 at a concrete event stream. -/
theorem claim_C10_summary_witness :
    collectLast [some ("ai".data, PyObj.pstr "hello".data)]
        = some (PyObj.pstr "hello".data)
      ∧ truthy (PyObj.pstr "hello".data) = true
      ∧ summaryText (collectLast [some ("ai".data, PyObj.pstr "hello".data)])
          = "Here is my response: ".data ++ (pyStr (PyObj.pstr "hello".data)).take 400
      ∧ summaryText (collectLast ([] : List GEvent))
          = "I have completed your request.".data :=
  ⟨by decide,
   ((claim_C10_summary [some ("ai".data, PyObj.pstr "hello".data)]).1 _ (by decide)).1,
   ((claim_C10_summary [some ("ai".data, PyObj.pstr "hello".data)]).1 _ (by decide)).2.1,
   (claim_C10_summary ([] : List GEvent)).2 (by decide)⟩




